import Mathlib

/-!
Shallow embedding of the session-token authentication core of the
`nextjs-template` repository: the login API handler, the session accessor
(`/api/me`), the logout handler, and the route-protection middleware.

Time is modelled in seconds (JWT epoch seconds).  The third-party
`jsonwebtoken` signing primitive is modelled as an ideal symmetric MAC:
a signed token records the secret it was signed with, and verification
succeeds exactly when that secret matches the configured one and the
token has not expired — the abstraction of an unforgeable signature.
-/

namespace NextAuth

/-- JavaScript truthiness test for an optional string field: `undefined`
and the empty string are both falsy (`!x` in the source). -/
def strFalsy : Option String → Bool
  | none => true
  | some s => decide (s = "")

/-- Model of JavaScript `String.prototype.toLowerCase` (ASCII case fold,
which covers every string this repository compares), computed
structurally on the character list. -/
def toLowerCase (s : String) : String := ⟨s.data.map Char.toLower⟩

/-- Structural test that the second character list is an initial segment
of the first. -/
def listStartsWith : List Char → List Char → Bool
  | _, [] => true
  | [], _ :: _ => false
  | c :: cs, d :: ds => c == d && listStartsWith cs ds

/-- Model of JavaScript `String.prototype.startsWith`. -/
def strStartsWith (s pre : String) : Bool := listStartsWith s.data pre.data

/-- The claim set `jwt.sign` embeds: `sub`, `email`, `name` from the
login payload. -/
structure JwtPayload where
  sub : String
  email : String
  name : String
deriving DecidableEq, Repr

/-- Full claims of a signed token: payload plus `iat` and `exp`
(`exp = iat + expiresIn`). -/
structure JwtClaims where
  payload : JwtPayload
  iat : Nat
  exp : Nat
deriving DecidableEq, Repr

/-- A signed token.  `sig` records the secret used at signing time
(ideal-MAC model of the HMAC signature over the full claim set). -/
structure Jwt where
  claims : JwtClaims
  sig : String
deriving DecidableEq, Repr

/-- Model of `jwt.sign(payload, secret, { expiresIn })`. -/
def jwtSign (p : JwtPayload) (secret : String) (now expiresIn : Nat) : Jwt :=
  { claims := { payload := p, iat := now, exp := now + expiresIn }, sig := secret }

/-- Failure modes of `jwt.verify`: bad signature (`JsonWebTokenError`)
or expiry (`TokenExpiredError`). -/
inductive JwtError where
  | invalidSignature
  | tokenExpired
deriving DecidableEq, Repr

/-- Model of `jwt.verify(token, secret)` at wall-clock time `now`:
signature is checked first; then `exp` with the strict comparison
`now < exp` required for validity. -/
def jwtVerify (t : Jwt) (secret : String) (now : Nat) : Except JwtError JwtClaims :=
  if t.sig = secret then
    if t.claims.exp ≤ now then .error .tokenExpired
    else .ok t.claims
  else .error .invalidSignature

/-- One record of the mock user database in the login handler. -/
structure User where
  id : String
  email : String
  password : String
  name : String
deriving DecidableEq, Repr

/-- The seeded credential list `USERS` of the login handler. -/
def USERS : List User :=
  [{ id := "1", email := "user@example.com", password := "password123", name := "Test User" }]

/-- Server environment: `process.env.JWT_SECRET` (absent or set) and
whether `process.env.NODE_ENV === 'production'`. -/
structure Env where
  jwtSecret : Option String
  nodeEnvProduction : Bool

/-- Values of the `SameSite` cookie attribute. -/
inductive SameSite where
  | strict
  | lax
  | noRestriction
deriving DecidableEq, Repr

/-- A `Set-Cookie` instruction as produced by `serialize(name, value, opts)`.
`value = none` models the empty string value used to clear the cookie;
`value = some t` models the serialized token `t`. -/
structure SetCookie where
  name : String
  value : Option Jwt
  httpOnly : Bool
  secure : Bool
  sameSite : SameSite
  maxAge : Nat
  path : String
deriving DecidableEq, Repr

/-- Request to the login endpoint: HTTP method and the `email` /
`password` fields of the JSON body (absent field = `none`). -/
structure LoginReq where
  method : String
  email : Option String
  password : Option String
deriving DecidableEq, Repr

/-- JSON body of a login response. -/
inductive LoginBody where
  | error (msg : String)
  | success (id email name : String)
deriving DecidableEq, Repr

/-- Login response: status code, optional `Set-Cookie`, body. -/
structure LoginRes where
  status : Nat
  setCookie : Option SetCookie
  body : LoginBody
deriving DecidableEq, Repr

/-- The login API handler (default export of the login route).
Order of checks follows the source exactly: method, body validation
(JS truthiness), credential lookup (case-insensitive email, exact
password), secret configuration, then sign + cookie + 200 body. -/
def loginHandler (env : Env) (req : LoginReq) (now : Nat) : LoginRes :=
  if req.method ≠ "POST" then
    { status := 405, setCookie := none, body := .error "Method not allowed" }
  else if strFalsy req.email || strFalsy req.password then
    { status := 400, setCookie := none, body := .error "Email and password are required" }
  else
    let email := req.email.getD ""
    let password := req.password.getD ""
    match USERS.find? (fun u =>
        toLowerCase u.email == toLowerCase email && u.password == password) with
    | none => { status := 401, setCookie := none, body := .error "Invalid email or password" }
    | some user =>
      if strFalsy env.jwtSecret then
        { status := 500, setCookie := none, body := .error "Server configuration error" }
      else
        let secret := env.jwtSecret.getD ""
        let token := jwtSign { sub := user.id, email := user.email, name := user.name }
          secret now 604800
        { status := 200,
          setCookie := some { name := "token", value := some token, httpOnly := true,
                              secure := env.nodeEnvProduction, sameSite := .strict,
                              maxAge := 604800, path := "/" },
          body := .success user.id user.email user.name }

/-- Request to `/api/me`: HTTP method and the parsed `token` cookie
(absent or falsy value = `none`). -/
structure MeReq where
  method : String
  cookieToken : Option Jwt
deriving DecidableEq, Repr

/-- JSON body of a `/api/me` response. -/
inductive MeBody where
  | error (msg : String)
  | user (id email name : String)
deriving DecidableEq, Repr

/-- Response of `/api/me` (the handler sets no cookie). -/
structure MeRes where
  status : Nat
  body : MeBody
deriving DecidableEq, Repr

/-- The session accessor `/api/me` handler: GET only, 401 without a
cookie, 500 without a configured secret, 401 on any verification
failure (the catch block), otherwise 200 with the decoded identity. -/
def meHandler (env : Env) (req : MeReq) (now : Nat) : MeRes :=
  if req.method ≠ "GET" then { status := 405, body := .error "Method not allowed" }
  else
    match req.cookieToken with
    | none => { status := 401, body := .error "Not authenticated" }
    | some token =>
      if strFalsy env.jwtSecret then
        { status := 500, body := .error "Server configuration error" }
      else
        match jwtVerify token (env.jwtSecret.getD "") now with
        | .error _ => { status := 401, body := .error "Invalid token" }
        | .ok decoded =>
          { status := 200,
            body := .user decoded.payload.sub decoded.payload.email decoded.payload.name }

/-- Request to `/api/logout`: HTTP method and the (ignored) cookie. -/
structure LogoutReq where
  method : String
  cookieToken : Option Jwt
deriving DecidableEq, Repr

/-- JSON body of a logout response. -/
inductive LogoutBody where
  | error (msg : String)
  | success
deriving DecidableEq, Repr

/-- Logout response. -/
structure LogoutRes where
  status : Nat
  setCookie : Option SetCookie
  body : LogoutBody
deriving DecidableEq, Repr

/-- The `/api/logout` handler: POST only; unconditionally clears the
`token` cookie (empty value, `maxAge = 0`) and returns 200. -/
def logoutHandler (env : Env) (req : LogoutReq) : LogoutRes :=
  if req.method ≠ "POST" then
    { status := 405, setCookie := none, body := .error "Method not allowed" }
  else
    { status := 200,
      setCookie := some { name := "token", value := none, httpOnly := true,
                          secure := env.nodeEnvProduction, sameSite := .strict,
                          maxAge := 0, path := "/" },
      body := .success }

/-- The `PROTECTED_ROUTES` list of the middleware. -/
def PROTECTED_ROUTES : List String :=
  ["/profile", "/dashboard", "/settings", "/api/protected"]

/-- The middleware's protected-path test: exact match or route followed
by a `/` separator. -/
def isProtectedRoute (pathname : String) : Bool :=
  PROTECTED_ROUTES.any (fun route =>
    pathname == route || strStartsWith pathname (route ++ "/"))

/-- Request seen by the middleware: path and `token` cookie (absent or
falsy value = `none`). -/
structure MwReq where
  pathname : String
  cookieToken : Option Jwt
deriving DecidableEq, Repr

/-- Outcome of the middleware: pass through (`NextResponse.next()`) or a
redirect, with its location, the optional `from` query parameter, and
whether the response deletes the `token` cookie. -/
inductive MwResult where
  | next
  | redirect (location : String) (fromParam : Option String) (deleteTokenCookie : Bool)
deriving DecidableEq, Repr

/-- The route-protection middleware: non-protected paths pass through;
missing cookie redirects to `/login` with `from`; missing secret
redirects bare; failed verification redirects and deletes the cookie;
success passes through. -/
def middleware (env : Env) (req : MwReq) (now : Nat) : MwResult :=
  if !(isProtectedRoute req.pathname) then .next
  else
    match req.cookieToken with
    | none => .redirect "/login" (some req.pathname) false
    | some token =>
      if strFalsy env.jwtSecret then .redirect "/login" none false
      else
        match jwtVerify token (env.jwtSecret.getD "") now with
        | .ok _ => .next
        | .error _ => .redirect "/login" none true

end NextAuth

namespace NextAuth

/-- C1: Round-trip — for every seeded Principal and any configured
non-empty secret, the login handler's response carries a `token` cookie
holding a token signed with claims `sub = id`, `email`, `name`, and the
session accessor, given that token at any time before its expiry,
succeeds and returns exactly the Principal's fields. -/
theorem c1_issue_verify_round_trip (u : User) (env : Env) (s : String) (now nowv : Nat)
    (hu : u ∈ USERS) (hs : env.jwtSecret = some s) (hs0 : s ≠ "")
    (hexp : nowv < now + 604800) :
    ∃ t : Jwt,
      (loginHandler env { method := "POST", email := some u.email, password := some u.password } now).setCookie
        = some { name := "token", value := some t, httpOnly := true,
                 secure := env.nodeEnvProduction, sameSite := .strict,
                 maxAge := 604800, path := "/" }
      ∧ t.claims.payload = { sub := u.id, email := u.email, name := u.name }
      ∧ meHandler env { method := "GET", cookieToken := some t } nowv
        = { status := 200, body := .user u.id u.email u.name } := by
  have hu1 : u = { id := "1", email := "user@example.com", password := "password123", name := "Test User" } := by
    simpa [USERS] using hu
  subst hu1
  refine ⟨jwtSign { sub := "1", email := "user@example.com", name := "Test User" } s now 604800, ?_, rfl, ?_⟩
  · simp [loginHandler, strFalsy, USERS, List.find?, hs, hs0,
      show toLowerCase "user@example.com" = "user@example.com" from by decide]
  · simp [meHandler, strFalsy, hs, hs0, jwtVerify, jwtSign, Nat.not_le.mpr hexp]

/-- Witness for C1 at the seeded user, secret `"s"`, issue time 0,
verification time 42. -/
theorem c1_issue_verify_round_trip_witness :
    ({ id := "1", email := "user@example.com", password := "password123", name := "Test User" } : User) ∈ USERS ∧
    ({ jwtSecret := some "s", nodeEnvProduction := false } : Env).jwtSecret = some "s" ∧
    ("s" : String) ≠ "" ∧ (42 : Nat) < 0 + 604800 ∧
    ∃ t : Jwt,
      (loginHandler { jwtSecret := some "s", nodeEnvProduction := false }
        { method := "POST", email := some "user@example.com", password := some "password123" } 0).setCookie
        = some { name := "token", value := some t, httpOnly := true,
                 secure := false, sameSite := .strict, maxAge := 604800, path := "/" }
      ∧ t.claims.payload = { sub := "1", email := "user@example.com", name := "Test User" }
      ∧ meHandler { jwtSecret := some "s", nodeEnvProduction := false }
        { method := "GET", cookieToken := some t } 42
        = { status := 200, body := .user "1" "user@example.com" "Test User" } :=
  ⟨by decide, rfl, by decide, by decide,
   c1_issue_verify_round_trip
     { id := "1", email := "user@example.com", password := "password123", name := "Test User" }
     { jwtSecret := some "s", nodeEnvProduction := false } "s" 0 42
     (by decide) rfl (by decide) (by decide)⟩

/-- C2: Token validity is an iff — verification succeeds exactly when
the signature was produced with the configured secret and the current
time is strictly before `exp`; success returns the embedded claims; an
expired token is rejected regardless of signature validity; a token
signed with a different secret is rejected. -/
theorem c2_token_validity_iff (t : Jwt) (s : String) (now : Nat) :
    ((∃ c, jwtVerify t s now = Except.ok c) ↔ t.sig = s ∧ now < t.claims.exp)
    ∧ (∀ c, jwtVerify t s now = Except.ok c → c = t.claims)
    ∧ (t.claims.exp ≤ now → ∃ e, jwtVerify t s now = Except.error e)
    ∧ (t.sig ≠ s → ∃ e, jwtVerify t s now = Except.error e) := by
  unfold jwtVerify
  by_cases hsig : t.sig = s
  · by_cases hexp : t.claims.exp ≤ now
    · simp [hsig, hexp, Nat.not_lt.mpr hexp]
    · simp [hsig, hexp, Nat.lt_of_not_le hexp]
  · simp [hsig]

/-- C3: Auth-gate path membership — a path is treated as protected iff
some route in `PROTECTED_ROUTES` equals it or is a prefix of it followed
by a `/`; every non-matching path passes through unconditionally, for
every cookie state, environment and time (no inspection occurs). -/
theorem c3_protected_path_membership (p : String) :
    (isProtectedRoute p = true ↔
      ∃ r ∈ PROTECTED_ROUTES, p = r ∨ strStartsWith p (r ++ "/") = true)
    ∧ (isProtectedRoute p = false →
        ∀ (env : Env) (c : Option Jwt) (now : Nat),
          middleware env { pathname := p, cookieToken := c } now = MwResult.next) := by
  constructor
  · simp [isProtectedRoute, List.any_eq_true, Bool.or_eq_true, beq_iff_eq]
  · intro h env c now
    simp [middleware, h]

/-- C4: A request to a protected path with no `token` cookie is
redirected to `/login` with the `from` parameter set to the requested
path and without deleting any cookie, for every environment and time
(so no verification is attempted). -/
theorem c4_no_cookie_redirect (env : Env) (p : String) (now : Nat)
    (hp : isProtectedRoute p = true) :
    middleware env { pathname := p, cookieToken := none } now
      = MwResult.redirect "/login" (some p) false := by
  simp [middleware, hp]

/-- Witness for C4 at path `/profile`. -/
theorem c4_no_cookie_redirect_witness :
    isProtectedRoute "/profile" = true ∧
    middleware { jwtSecret := some "s", nodeEnvProduction := false }
      { pathname := "/profile", cookieToken := none } 0
      = MwResult.redirect "/login" (some "/profile") false :=
  ⟨by decide, c4_no_cookie_redirect _ _ _ (by decide)⟩

/-- C5: A request to a protected path whose `token` cookie fails
verification under the configured secret is redirected to `/login` and
the response deletes the `token` cookie. -/
theorem c5_bad_token_redirect_and_clear (env : Env) (p : String) (t : Jwt)
    (now : Nat) (s : String) (e : JwtError)
    (hp : isProtectedRoute p = true) (hs : env.jwtSecret = some s) (hs0 : s ≠ "")
    (hv : jwtVerify t s now = Except.error e) :
    middleware env { pathname := p, cookieToken := some t } now
      = MwResult.redirect "/login" none true := by
  simp [middleware, hp, strFalsy, hs, hs0, hv]

/-- Witness for C5 at path `/profile` with a token signed under a
different secret. -/
theorem c5_bad_token_redirect_and_clear_witness :
    isProtectedRoute "/profile" = true ∧
    ({ jwtSecret := some "s", nodeEnvProduction := false } : Env).jwtSecret = some "s" ∧
    ("s" : String) ≠ "" ∧
    jwtVerify { claims := { payload := { sub := "1", email := "e", name := "n" }, iat := 0, exp := 604800 }, sig := "other" } "s" 0
      = Except.error JwtError.invalidSignature ∧
    middleware { jwtSecret := some "s", nodeEnvProduction := false }
      { pathname := "/profile",
        cookieToken := some { claims := { payload := { sub := "1", email := "e", name := "n" }, iat := 0, exp := 604800 }, sig := "other" } } 0
      = MwResult.redirect "/login" none true :=
  ⟨by decide, rfl, by decide, rfl,
   c5_bad_token_redirect_and_clear _ _ _ _ _ JwtError.invalidSignature (by decide) rfl (by decide) rfl⟩

/-- C6: Login success — for any POST whose email field lowercases to the
seeded identifier and whose password is the seeded secret, under a
configured non-empty secret, the response is 200, sets the `token`
cookie with `httpOnly`, `sameSite = strict`, `path = /`,
`maxAge = 604800` holding the signed token, and its body is exactly the
principal's public fields (the token never appears in the body). -/
theorem c6_login_success (env : Env) (e : String) (s : String) (now : Nat)
    (hs : env.jwtSecret = some s) (hs0 : s ≠ "")
    (he : toLowerCase e = "user@example.com") :
    loginHandler env { method := "POST", email := some e, password := some "password123" } now
      = { status := 200,
          setCookie := some
            { name := "token",
              value := some (jwtSign { sub := "1", email := "user@example.com", name := "Test User" } s now 604800),
              httpOnly := true, secure := env.nodeEnvProduction, sameSite := .strict,
              maxAge := 604800, path := "/" },
          body := .success "1" "user@example.com" "Test User" } := by
  have he0 : e ≠ "" := by
    intro h
    rw [h] at he
    exact absurd he (by decide)
  have hlow : toLowerCase "user@example.com" = "user@example.com" := by decide
  simp [loginHandler, strFalsy, he0, USERS, List.find?, hlow, he, hs, hs0]

/-- Witness for C6 with a mixed-case identifier. -/
theorem c6_login_success_witness :
    ({ jwtSecret := some "topsecret", nodeEnvProduction := true } : Env).jwtSecret = some "topsecret" ∧
    ("topsecret" : String) ≠ "" ∧
    toLowerCase "User@Example.COM" = "user@example.com" ∧
    loginHandler { jwtSecret := some "topsecret", nodeEnvProduction := true }
      { method := "POST", email := some "User@Example.COM", password := some "password123" } 1000
      = { status := 200,
          setCookie := some
            { name := "token",
              value := some (jwtSign { sub := "1", email := "user@example.com", name := "Test User" } "topsecret" 1000 604800),
              httpOnly := true, secure := true, sameSite := .strict,
              maxAge := 604800, path := "/" },
          body := .success "1" "user@example.com" "Test User" } :=
  ⟨rfl, by decide, by decide,
   c6_login_success _ _ _ 1000 rfl (by decide) (by decide)⟩

/-- C7: Login failure atomicity — for any POST with both fields present
(non-empty) whose identifier/secret pair matches no stored credential
(email case-insensitively, password exactly), the response is 401 with
the generic body, no cookie is set, and the response is the same
constant whether or not the identifier exists. -/
theorem c7_login_failure_generic (env : Env) (e pw : String) (now : Nat)
    (he : e ≠ "") (hpw : pw ≠ "")
    (hnone : ∀ u ∈ USERS, ¬(toLowerCase u.email = toLowerCase e ∧ u.password = pw)) :
    loginHandler env { method := "POST", email := some e, password := some pw } now
      = { status := 401, setCookie := none, body := .error "Invalid email or password" } := by
  have hfind : USERS.find? (fun u =>
      toLowerCase u.email == toLowerCase e && u.password == pw) = none := by
    rw [List.find?_eq_none]
    intro u hu
    have := hnone u hu
    simp only [Bool.and_eq_true, beq_iff_eq]
    intro hcon
    exact this ⟨hcon.1, hcon.2⟩
  simp [loginHandler, strFalsy, he, hpw, hfind]

/-- Witness for C7 with an existing identifier and a wrong password. -/
theorem c7_login_failure_generic_witness :
    ("user@example.com" : String) ≠ "" ∧
    ("wrongpass" : String) ≠ "" ∧
    (∀ u ∈ USERS, ¬(toLowerCase u.email = toLowerCase "user@example.com" ∧ u.password = "wrongpass")) ∧
    loginHandler { jwtSecret := some "s", nodeEnvProduction := false }
      { method := "POST", email := some "user@example.com", password := some "wrongpass" } 0
      = { status := 401, setCookie := none, body := .error "Invalid email or password" } :=
  ⟨by decide, by decide, by decide,
   c7_login_failure_generic _ _ _ 0 (by decide) (by decide) (by decide)⟩

/-- C8: Logout totality and idempotence — every POST to the logout
endpoint, whatever the cookie state, yields 200 with `success` and sets
the `token` cookie to the empty value with `maxAge = 0`; it never
returns a failure status. -/
theorem c8_logout_total_idempotent (env : Env) (c : Option Jwt) :
    logoutHandler env { method := "POST", cookieToken := c }
      = { status := 200,
          setCookie := some { name := "token", value := none, httpOnly := true,
                              secure := env.nodeEnvProduction, sameSite := .strict,
                              maxAge := 0, path := "/" },
          body := .success } := by
  simp [logoutHandler]

/-- C9: Missing-secret configuration error — when no secret is
configured, a login request that passes the earlier validations
(matching seeded credentials) and a session-accessor GET that carries a
cookie both answer 500 with the same generic configuration-error
message. -/
theorem c9_missing_secret_config_error (env : Env) (e : String) (t : Jwt) (now nowv : Nat)
    (hs : strFalsy env.jwtSecret = true)
    (he : toLowerCase e = "user@example.com") :
    loginHandler env { method := "POST", email := some e, password := some "password123" } now
      = { status := 500, setCookie := none, body := .error "Server configuration error" }
    ∧ meHandler env { method := "GET", cookieToken := some t } nowv
      = { status := 500, body := .error "Server configuration error" } := by
  have he0 : e ≠ "" := by
    intro h
    rw [h] at he
    exact absurd he (by decide)
  have hf1 : strFalsy (some e) = false := by simp [strFalsy, he0]
  constructor
  · simp [loginHandler, hf1, USERS, List.find?, he, hs,
      show strFalsy (some "password123") = false from by decide,
      show toLowerCase "user@example.com" = "user@example.com" from by decide]
  · simp [meHandler, hs]

/-- Witness for C9 with an unset secret. -/
theorem c9_missing_secret_config_error_witness :
    strFalsy ({ jwtSecret := none, nodeEnvProduction := false } : Env).jwtSecret = true ∧
    toLowerCase "user@example.com" = "user@example.com" ∧
    (loginHandler { jwtSecret := none, nodeEnvProduction := false }
      { method := "POST", email := some "user@example.com", password := some "password123" } 0
      = { status := 500, setCookie := none, body := .error "Server configuration error" }
    ∧ meHandler { jwtSecret := none, nodeEnvProduction := false }
      { method := "GET",
        cookieToken := some { claims := { payload := { sub := "1", email := "e", name := "n" }, iat := 0, exp := 604800 }, sig := "s" } } 0
      = { status := 500, body := .error "Server configuration error" }) :=
  ⟨by decide, by decide,
   c9_missing_secret_config_error _ _ _ 0 0 (by decide) (by decide)⟩

/-- C10: Implicit gate edge case — a request to a protected path that
carries a `token` cookie while no secret is configured is redirected to
`/login` with no `from` parameter and without deleting the cookie, a
third branch distinct from the missing-cookie and failed-verification
behaviours. -/
theorem c10_missing_secret_gate_branch (env : Env) (p : String) (t : Jwt) (now : Nat)
    (hp : isProtectedRoute p = true) (hs : strFalsy env.jwtSecret = true) :
    middleware env { pathname := p, cookieToken := some t } now
      = MwResult.redirect "/login" none false := by
  simp [middleware, hp, hs]

/-- Witness for C10 at path `/profile` with an unset secret. -/
theorem c10_missing_secret_gate_branch_witness :
    isProtectedRoute "/profile" = true ∧
    strFalsy ({ jwtSecret := none, nodeEnvProduction := false } : Env).jwtSecret = true ∧
    middleware { jwtSecret := none, nodeEnvProduction := false }
      { pathname := "/profile",
        cookieToken := some { claims := { payload := { sub := "1", email := "e", name := "n" }, iat := 0, exp := 604800 }, sig := "s" } } 0
      = MwResult.redirect "/login" none false :=
  ⟨by decide, by decide,
   c10_missing_secret_gate_branch _ _ _ _ (by decide) (by decide)⟩

end NextAuth
